import Mathlib

/-!
Shallow embedding of `src/ws_base/ws_base.py` (the `wsbase` repository):
envelope model (`Req`/`Rsp`/`SerializableException`), the client-side
request/response correlator, the server-side dispatcher, the connection
admission gate, the certificate manager, and the server constructor's
hostname/port resolution.

Python values appearing in envelope fields are modelled by `PyVal`
(None / int / str / list / dict / serializable value).  A serializable
value (`SerializableDataClass` / `SerializableBaseModel`) is identified
by its canonical JSON text: `to_json` returns that text and `from_json`
is its inverse, which is exactly the pydantic contract the code relies on.
Machine-level concerns (sockets, threads, real time) are modelled by
explicit state passing: the transport delivers a payload dictionary to a
handler, and the blocking wait is modelled by the boolean outcome of the
wake flag at the deadline.
-/

namespace WsBase

/-- A Python value as it can appear in an envelope field: `None`, an int,
a str, a list, a dict (string-keyed, as produced by JSON payloads), or a
serializable value identified by its canonical JSON text. -/
inductive PyVal where
  | none : PyVal
  | int (n : Int) : PyVal
  | str (s : String) : PyVal
  | list (xs : List PyVal) : PyVal
  | dict (kvs : List (String × PyVal)) : PyVal
  | ser (j : String) : PyVal

mutual

/-- Structural equality test on `PyVal` (Python `==` / `!=` on these values). -/
def PyVal.beqVal : PyVal → PyVal → Bool
  | .none, .none => true
  | .int a, .int b => a == b
  | .str a, .str b => a == b
  | .list xs, .list ys => PyVal.beqValList xs ys
  | .dict xs, .dict ys => PyVal.beqValDict xs ys
  | .ser a, .ser b => a == b
  | _, _ => false

/-- Equality test on lists of `PyVal`. -/
def PyVal.beqValList : List PyVal → List PyVal → Bool
  | [], [] => true
  | x :: xs, y :: ys => PyVal.beqVal x y && PyVal.beqValList xs ys
  | _, _ => false

/-- Equality test on string-keyed association lists of `PyVal`. -/
def PyVal.beqValDict : List (String × PyVal) → List (String × PyVal) → Bool
  | [], [] => true
  | (k, v) :: xs, (k2, v2) :: ys =>
      k == k2 && PyVal.beqVal v v2 && PyVal.beqValDict xs ys
  | _, _ => false

end

mutual

theorem PyVal.beqVal_iff : ∀ (a b : PyVal), PyVal.beqVal a b = true ↔ a = b
  | .none, b => by cases b <;> simp [PyVal.beqVal]
  | .int a, b => by cases b <;> simp [PyVal.beqVal]
  | .str a, b => by cases b <;> simp [PyVal.beqVal]
  | .ser a, b => by cases b <;> simp [PyVal.beqVal]
  | .list xs, b => by
      cases b <;> simp [PyVal.beqVal]
      exact PyVal.beqValList_iff xs _
  | .dict kvs, b => by
      cases b <;> simp [PyVal.beqVal]
      exact PyVal.beqValDict_iff kvs _

theorem PyVal.beqValList_iff : ∀ (xs ys : List PyVal),
    PyVal.beqValList xs ys = true ↔ xs = ys
  | [], ys => by cases ys <;> simp [PyVal.beqValList]
  | x :: xs, [] => by simp [PyVal.beqValList]
  | x :: xs, y :: ys => by
      simp [PyVal.beqValList, PyVal.beqVal_iff x y, PyVal.beqValList_iff xs ys]

theorem PyVal.beqValDict_iff : ∀ (xs ys : List (String × PyVal)),
    PyVal.beqValDict xs ys = true ↔ xs = ys
  | [], ys => by cases ys <;> simp [PyVal.beqValDict]
  | (k, v) :: xs, [] => by simp [PyVal.beqValDict]
  | (k, v) :: xs, (k2, v2) :: ys => by
      simp [PyVal.beqValDict, PyVal.beqVal_iff v v2, PyVal.beqValDict_iff xs ys,
        Prod.ext_iff, and_assoc]

end

instance : DecidableEq PyVal := fun a b =>
  decidable_of_iff (PyVal.beqVal a b = true) (PyVal.beqVal_iff a b)

mutual

/-- Python `repr` of a `PyVal` (string escaping inside reprs is not modelled). -/
def pyRepr : PyVal → String
  | .none => "None"
  | .int n => toString n
  | .str s => "'" ++ s ++ "'"
  | .list xs => "[" ++ pyReprList xs ++ "]"
  | .dict kvs => "\x7b" ++ pyReprDict kvs ++ "\x7d"
  | .ser j => "<serializable " ++ j ++ ">"

/-- Comma-separated reprs of list elements. -/
def pyReprList : List PyVal → String
  | [] => ""
  | [x] => pyRepr x
  | x :: y :: xs => pyRepr x ++ ", " ++ pyReprList (y :: xs)

/-- Comma-separated reprs of dict items. -/
def pyReprDict : List (String × PyVal) → String
  | [] => ""
  | [(k, v)] => "'" ++ k ++ "': " ++ pyRepr v
  | (k, v) :: kv :: xs => "'" ++ k ++ "': " ++ pyRepr v ++ ", " ++ pyReprDict (kv :: xs)

end

/-- Python `str()` of a `PyVal`, as used by f-string interpolation and the
`str(self.event)` coercion in `to_dict`. -/
def pyStr : PyVal → String
  | .str s => s
  | v => pyRepr v

/-- Models `to_json` of a serializable value (`SerializableDataClass.to_json` /
`SerializableBaseModel.to_json`): its canonical JSON text. -/
def serializable_to_json : PyVal → Option String
  | .ser j => some j
  | _ => Option.none

/-- Models `from_json` of a serializable value: the value identified by the given
canonical JSON text (pydantic's `model_validate_json` inverse contract). -/
def serializable_from_json (j : String) : PyVal := .ser j

/-- Models `Status.SUCCESS` constant. -/
def Status.SUCCESS : String := "success"

/-- Models `Status.ERROR` constant. -/
def Status.ERROR : String := "error"

/-- Models `get_req_event`: appends the request suffix. -/
def get_req_event (event : String) : String := event ++ "_req"

/-- Models `get_rsp_event`: appends the response suffix. -/
def get_rsp_event (event : String) : String := event ++ "_rsp"

/-- The `Req` dataclass: `event: Any`, `data: Optional[...] = None`.
Absent optional data is `PyVal.none` (Python `None`). -/
structure Req where
  event : PyVal
  data : PyVal := .none
deriving DecidableEq

/-- Models `Req.to_dict`: a serializable `data` is replaced by its canonical JSON
text and `event` is coerced with `str()`; otherwise `asdict(self)`. -/
def Req.to_dict (r : Req) : List (String × PyVal) :=
  match r.data with
  | .ser j => [("event", .str (pyStr r.event)), ("data", .str j)]
  | d => [("event", r.event), ("data", d)]

/-- Models `Req.from_dict(d) = cls(**d)`: fails (Python `TypeError`) on an
unexpected key or a missing `event`; performs no kind checking and no
conversion of the values. -/
def Req.from_dict (d : List (String × PyVal)) : Except String Req :=
  if d.all (fun kv => kv.1 == "event" || kv.1 == "data") then
    match d.lookup "event" with
    | some e => .ok ⟨e, (d.lookup "data").getD .none⟩
    | Option.none => .error "TypeError: missing required argument: event"
  else .error "TypeError: unexpected keyword argument"

/-- The `Rsp` dataclass: `status: str`, `event: Optional[Any] = None`,
`data: Optional[...] = None`. -/
structure Rsp where
  status : PyVal
  event : PyVal := .none
  data : PyVal := .none
deriving DecidableEq

/-- Models `Rsp.to_dict`: a serializable `data` is replaced by its canonical JSON
text and `event` is coerced with `str()`; otherwise `asdict(self)`. -/
def Rsp.to_dict (r : Rsp) : List (String × PyVal) :=
  match r.data with
  | .ser j => [("status", r.status), ("event", .str (pyStr r.event)), ("data", .str j)]
  | d => [("status", r.status), ("event", r.event), ("data", d)]

/-- Models `Rsp.from_dict(d) = cls(**d)`: fails (Python `TypeError`) on an
unexpected key or a missing `status`; `event` and `data` default to
`None`; performs no kind checking. -/
def Rsp.from_dict (d : List (String × PyVal)) : Except String Rsp :=
  if d.all (fun kv => kv.1 == "status" || kv.1 == "event" || kv.1 == "data") then
    match d.lookup "status" with
    | some st => .ok ⟨st, (d.lookup "event").getD .none, (d.lookup "data").getD .none⟩
    | Option.none => .error "TypeError: missing required argument: status"
  else .error "TypeError: unexpected keyword argument"

/-- The `SerializableException` dataclass: `name`, `message`, `tb`. -/
structure SerializableException where
  name : PyVal
  message : PyVal
  tb : PyVal
deriving DecidableEq

/-- Models `SerializableException.from_dict(d) = cls(**d)`: `d` must be a mapping
with exactly the keys `name`, `message`, `tb` (all required, no defaults). -/
def SerializableException.from_dict : PyVal → Except String SerializableException
  | .dict d =>
      if d.all (fun kv => kv.1 == "name" || kv.1 == "message" || kv.1 == "tb") then
        match d.lookup "name", d.lookup "message", d.lookup "tb" with
        | some n, some m, some t => .ok ⟨n, m, t⟩
        | _, _, _ => .error "TypeError: missing required argument"
      else .error "TypeError: unexpected keyword argument"
  | _ => .error "TypeError: argument after ** must be a mapping"

/-- Models `SerializableException.to_dict = asdict(self)`. -/
def SerializableException.to_dict (e : SerializableException) : List (String × PyVal) :=
  [("name", e.name), ("message", e.message), ("tb", e.tb)]

/-- A Python exception as caught at the dispatch boundary: its class name
(`e.__class__.__name__`), its `str(e)` message, and its formatted
traceback (`traceback.format_exc()`). -/
structure PyExc where
  name : String
  message : String
  tb : String
deriving DecidableEq

/-- An exception raised on the client side by the correlator:
a reconstructed mapped domain error (with `tb` and `event` attached as
auxiliary fields), the generic `ResponseError` fallback,
`ResponseTimeoutError`, or a plain Python error surfaced while decoding. -/
inductive RaisedExc where
  | mapped (cls : String) (message : PyVal) (tb : PyVal) (event : PyVal)
  | responseError (message : String) (tb : PyVal)
  | responseTimeout
  | typeError (msg : String)
  | attributeError (msg : String)
deriving DecidableEq

/-- The mutable client state: the pending-response slot `self.rsp`, the
wake flag `self.rsp_event`, and the transport handle `self.sio`
(`some c` is a client object whose `connected` property is `c`;
`none` is `self.sio = None`). -/
structure ClientState where
  rsp : Option Rsp
  rsp_event_set : Bool
  sio : Option Bool
deriving DecidableEq

/-- Models `ClientBase.connected`: `self.sio is not None and self.sio.connected`. -/
def ClientState.connected (st : ClientState) : Bool :=
  match st.sio with
  | some c => c
  | Option.none => false

/-- Models `ClientBase.disconnect`: if connected, disconnect the transport and
clear `self.sio`; otherwise do nothing. -/
def ClientState.disconnect (st : ClientState) : ClientState :=
  if st.connected then { st with sio := Option.none } else st

/-- Models `s[:-4]` on a Python str: all but the last four characters. -/
def dropLast4 (s : String) : String := String.mk (s.data.take (s.data.length - 4))

/-- Models `value[:-4]` as applied by the response wrapper to the `event` item:
total on str and list, a `TypeError` otherwise, as in Python. -/
def pySliceDropLast4 : PyVal → Except String PyVal
  | .str s => .ok (.str (dropLast4 s))
  | .list xs => .ok (.list (xs.take (xs.length - 4)))
  | _ => .error "TypeError: value is not subscriptable"

/-- The wrapper installed by `ClientBase.handle_response` on the
`<name>_rsp` channel: rebuilds the payload with the `event` item sliced
by `[:-4]` (unconditionally), decodes it with `Rsp.from_dict`, stores the
result in the pending slot and sets the wake flag.  If an exception
occurs first, the state is left unchanged (the error propagates into the
transport). -/
def client_handle_response (st : ClientState) (d : List (String × PyVal)) :
    ClientState × Option String :=
  match d.mapM (fun kv =>
      if kv.1 == "event" then (pySliceDropLast4 kv.2).map (fun v => (kv.1, v))
      else .ok kv) with
  | .error e => (st, some e)
  | .ok d2 =>
      match Rsp.from_dict d2 with
      | .error e => (st, some e)
      | .ok r => ({ st with rsp := some r, rsp_event_set := true }, Option.none)

/-- Models `ClientBase._get_response`: `st.rsp_event_set` is the state of the
wake flag when the timed wait returns (`false` means no response arrived
within the timeout).  If it is unset the client is disconnected and
`ResponseTimeoutError` raised; otherwise the flag is cleared and the
stored `self.rsp` is returned as-is. -/
def get_response (st : ClientState) : ClientState × Except RaisedExc (Option Rsp) :=
  if st.rsp_event_set then
    ({ st with rsp_event_set := false }, .ok st.rsp)
  else
    (st.disconnect, .error .responseTimeout)

/-- Models `ClientBase.verify_response`: on a non-success status, decode
`rsp.data` as a `SerializableException` and raise either the mapped local
class applied to the record's message (with `tb` and the response's
`event` attached) or the `ResponseError` fallback whose f-string message
embeds name, message and event; on success raise nothing.  The exception
registry maps an error type name to the local class, identified by its
name. -/
def verify_response (exc_map : List (String × String)) (rsp : Rsp) : Option RaisedExc :=
  if rsp.status ≠ .str Status.SUCCESS then
    match SerializableException.from_dict rsp.data with
    | .error e => some (.typeError e)
    | .ok exc =>
        match (match exc.name with
               | .str n => exc_map.lookup n
               | _ => Option.none : Option String) with
        | some cls => some (.mapped cls exc.message exc.tb rsp.event)
        | Option.none =>
            some (.responseError
              ("Error: " ++ pyStr exc.name ++ ", message: " ++ pyStr exc.message ++
               ", event: " ++ pyStr rsp.event) exc.tb)
  else Option.none

/-- Models `ClientBase._get_and_verify_response`: `_get_response`, then
`verify_response` on its result, then return that same response object
(a `None` stored slot makes `verify_response` fail with `AttributeError`,
as `None.status` would in Python). -/
def get_and_verify_response (exc_map : List (String × String)) (st : ClientState) :
    ClientState × Except RaisedExc Rsp :=
  match get_response st with
  | (st2, .error e) => (st2, .error e)
  | (st2, .ok Option.none) => (st2, .error (.attributeError "NoneType has no attribute status"))
  | (st2, .ok (some r)) =>
      match verify_response exc_map r with
      | some e => (st2, .error e)
      | Option.none => (st2, .ok r)

/-- Models `ClientBase.make_request`: emit the encoded request on the
`<event>_req` channel (the event must be a str for the suffix
concatenation to succeed). -/
def make_request (req : Req) : Except String (String × List (String × PyVal)) :=
  match req.event with
  | .str ev => .ok (get_req_event ev, req.to_dict)
  | _ => .error "TypeError: can only concatenate str to str"

/-- An event emitted by the server on the transport: event name, payload
dictionary, and the targeted session (`to=sid`). -/
structure Emit where
  event : String
  payload : List (String × PyVal)
  to_sid : String
deriving DecidableEq

/-- A handler as registered through `ServerBase.handle_request`: it
receives `(sid, event, data)` and either returns a `Rsp` or raises. -/
def Handler := String → PyVal → PyVal → Except PyExc Rsp

/-- The wrapper installed by `ServerBase.handle_request` on the
`<name>_req` channel: decode the request; run the handler, catching every
exception into an error `Rsp` carrying the encoded exception; set
`rsp.event = get_rsp_event(req.event)`; emit exactly that one response to
the originating sid.  A decode failure emits nothing (the exception
propagates into the transport), as does a non-str request event, on which
the `+ '_rsp'` concatenation raises `TypeError`. -/
def handle_request_wrapper (handler : Handler) (sid : String)
    (d : List (String × PyVal)) : List Emit × Option String :=
  match Req.from_dict d with
  | .error e => ([], some e)
  | .ok req =>
      let rsp : Rsp :=
        match handler sid req.event req.data with
        | .ok r => r
        | .error e =>
            { status := .str Status.ERROR,
              data := .dict (SerializableException.to_dict
                ⟨.str e.name, .str e.message, .str e.tb⟩) }
      match req.event with
      | .str ev =>
          ([⟨get_rsp_event ev, { rsp with event := .str (get_rsp_event ev) }.to_dict, sid⟩],
           Option.none)
      | _ => ([], some "TypeError: can only concatenate str to str")

/-- The server's `connect` event callback (`ServerBase.connection_callbacks`):
refuse the connection (`ConnectionRefusedError('Authentication failed')`)
unless the supplied auth payload equals the configured auth key. -/
def server_connect_gate (auth_key : PyVal) (auth : PyVal) : Except String Unit :=
  if auth ≠ auth_key then .error "ConnectionRefusedError: Authentication failed"
  else .ok ()

/-- Modelled transport collaborator (spec section 1): a connection attempt
runs the server's connect callback; if it raises, the connection is
refused and no session is created, otherwise the session is admitted.
Returns the new session list and whether the attempt succeeded. -/
def transport_connect (auth_key : PyVal) (sessions : List String) (sid : String)
    (auth : PyVal) : List String × Bool :=
  match server_connect_gate auth_key auth with
  | .ok _ => (sid :: sessions, true)
  | .error _ => (sessions, false)

/-- Modelled transport collaborator: registered request handlers are
reachable for a session only if that session was admitted. -/
def handlers_reachable (sessions : List String) (sid : String) : Bool :=
  sessions.contains sid

/-- An RSA private key, abstracted to its generation parameters; the
entropy draw `seed` identifies the generated key material. -/
structure RSAKey where
  public_exponent : Nat
  key_size : Nat
  seed : Nat
deriving DecidableEq

/-- Models `rsa.generate_private_key(public_exponent, key_size)`. -/
def rsa_generate_private_key (public_exponent key_size seed : Nat) : RSAKey :=
  ⟨public_exponent, key_size, seed⟩

/-- An X.509 certificate, abstracted to the fields set by the builder
chain of `generate_selfsigned_cert`.  Time is counted in days. -/
structure Cert where
  subject_cn : String
  issuer_cn : String
  public_key_of : RSAKey
  serial : Nat
  not_valid_before : Nat
  not_valid_after : Nat
  ca : Bool
  path_length : Option Nat
  san_dns : List String
  digest : String
deriving DecidableEq

/-- Models `generate_selfsigned_cert(hostname, ip_addresses, key)`: a fresh
4096-bit key when none is supplied, subject = issuer = common name =
hostname, SAN = hostname plus the extra names (note the extras are added
as `x509.DNSName` entries, so they land in the DNS-name list), basic
constraints CA=true with path length 0, validity `now .. now + 365*10`
days, SHA-256 signature digest.  `seed` and `serial` stand for the
entropy draws of `rsa.generate_private_key` and
`x509.random_serial_number`; `now` is `datetime.now(UTC)` in days. -/
def generate_selfsigned_cert (hostname : String) (ip_addresses : Option (List String))
    (key : Option RSAKey) (seed serial now : Nat) : Cert × RSAKey :=
  let key := key.getD (rsa_generate_private_key 65537 4096 seed)
  let alt_names := hostname :: ip_addresses.getD []
  ({ subject_cn := hostname, issuer_cn := hostname, public_key_of := key,
     serial := serial, not_valid_before := now, not_valid_after := now + 365 * 10,
     ca := true, path_length := some 0, san_dns := alt_names, digest := "SHA256" }, key)

/-- A filesystem path, split into its parent directory and file name. -/
structure FsPath where
  parent : String
  name : String
deriving DecidableEq

/-- File contents, tagged with the PEM encoding used by the generator
(the private key is serialized as TraditionalOpenSSL PEM without
encryption). -/
inductive FileContent where
  | certPem (c : Cert)
  | keyPem (k : RSAKey)
  | other (bytes : String)
deriving DecidableEq

/-- A filesystem: the set of existing directories and the files. -/
structure FS where
  dirs : List String
  files : List (FsPath × FileContent)
deriving DecidableEq

/-- Models `p.exists()`. -/
def FS.existsFile (fs : FS) (p : FsPath) : Bool := (fs.files.lookup p).isSome

/-- Models `p.read_bytes()`. -/
def FS.read_bytes (fs : FS) (p : FsPath) : Option FileContent := fs.files.lookup p

/-- Models `p.parent.mkdir(parents=True, exist_ok=True)`. -/
def FS.mkdir_parent (fs : FS) (p : FsPath) : FS := { fs with dirs := p.parent :: fs.dirs }

/-- Models `p.write_bytes(c)`: fails with `FileNotFoundError` when the parent
directory does not exist, else creates or overwrites the file. -/
def FS.write_bytes (fs : FS) (p : FsPath) (c : FileContent) : Except String FS :=
  if fs.dirs.contains p.parent then
    .ok { fs with files := (p, c) :: fs.files.filter (fun f => !(f.1 == p)) }
  else .error "FileNotFoundError"

/-- Models `get_dns_names_from_cert`: parse PEM data as a certificate and return
the SAN extension's DNS names; non-certificate bytes fail to parse. -/
def get_dns_names_from_cert : FileContent → Except String (List String)
  | .certPem c => .ok c.san_dns
  | _ => .error "ValueError: unable to load PEM certificate"

/-- Models `generate_new_cert(certfile_path, keyfile_path, hostname)`: generate a
self-signed certificate for the hostname, create the certificate file's
parent directory (only that one — `certfile_path.parent.mkdir(...)`), and
write both PEM files. -/
def generate_new_cert (certfile_path keyfile_path : FsPath) (hostname : String)
    (seed serial now : Nat) (fs : FS) : Except String FS :=
  let gen := generate_selfsigned_cert hostname Option.none Option.none seed serial now
  match (fs.mkdir_parent certfile_path).write_bytes certfile_path (.certPem gen.1) with
  | .error e => .error e
  | .ok fs2 => fs2.write_bytes keyfile_path (.keyPem gen.2)

/-- The certificate block of `ServerBase.__init__` (run when
`generate_cert` is true): regenerate when either file is missing, or when
the existing certificate's SAN DNS names do not contain the hostname;
otherwise leave the filesystem untouched. -/
def ensure_cert (certfile_path keyfile_path : FsPath) (hostname : String)
    (seed serial now : Nat) (fs : FS) : Except String FS :=
  if !(fs.existsFile certfile_path) || !(fs.existsFile keyfile_path) then
    generate_new_cert certfile_path keyfile_path hostname seed serial now fs
  else
    match fs.read_bytes certfile_path with
    | Option.none => .error "FileNotFoundError"
    | some content =>
        match get_dns_names_from_cert content with
        | .error e => .error e
        | .ok dns_names =>
            if !(dns_names.contains hostname) then
              generate_new_cert certfile_path keyfile_path hostname seed serial now fs
            else .ok fs

/-- Python truthiness of an optional str: `None` and `''` are falsy. -/
def pyTruthyStr : Option String → Bool
  | Option.none => false
  | some s => !(s == "")

/-- Python truthiness of an optional numeric port: `None` and `0` are falsy. -/
def pyTruthyNat : Option Nat → Bool
  | Option.none => false
  | some n => !(n == 0)

/-- ASCII lowercasing of one character (hostname normalization). -/
def asciiLower (c : Char) : Char :=
  if 65 ≤ c.toNat ∧ c.toNat ≤ 90 then Char.ofNat (c.toNat + 32) else c

/-- Models `urllib.parse.urlparse(url).netloc` as characters: the text
after the first `://` and before the following `/`; empty when the url
has no `://` part (urlparse then places everything in the path). -/
def netlocChars : List Char → List Char
  | [] => []
  | ':' :: '/' :: '/' :: rest => rest.takeWhile (fun c => !(c == '/'))
  | _ :: rest => netlocChars rest

/-- Models `urlparse(url).hostname`: the netloc up to the `:` separator,
lowercased; `None` when empty. -/
def urlparse_hostname (url : String) : Option String :=
  let h := ((netlocChars url.data).takeWhile (fun c => !(c == ':'))).map asciiLower
  if h.isEmpty then Option.none else some (String.mk h)

/-- Models `urlparse(url).port`: the decimal digits after the `:`
separator; `None` when there is no separator or no valid number. -/
def urlparse_port (url : String) : Option Nat :=
  match (netlocChars url.data).dropWhile (fun c => !(c == ':')) with
  | [] => Option.none
  | _ :: digits =>
      if !digits.isEmpty &&
          digits.all (fun c => decide (48 ≤ c.toNat) && decide (c.toNat ≤ 57)) then
        some (digits.foldl (fun n c => n * 10 + (c.toNat - 48)) 0)
      else Option.none

/-- The hostname/port resolution of `ServerBase.__init__`: a truthy `url`
is mutually exclusive with a truthy `hostname` or `port` and is parsed
with `urlparse`; afterwards both resolved values must be truthy or a
`ValueError` is raised. -/
def server_resolve_host_port (hostname : Option String) (port : Option Nat)
    (url : Option String) : Except String (Option String × Option Nat) :=
  match (if pyTruthyStr url then
           if pyTruthyStr hostname || pyTruthyNat port then
             .error "You cannot specify both URL and hostname or port"
           else
             .ok (urlparse_hostname (url.getD ""), urlparse_port (url.getD ""))
         else .ok (hostname, port) : Except String (Option String × Option Nat)) with
  | .error e => .error e
  | .ok (h, p) =>
      if !(pyTruthyStr h) || !(pyTruthyNat p) then
        .error "Both hostname and port must be specified either directly or via the URL"
      else .ok (h, p)

/-- Whether a decode succeeded (no exception raised). -/
def isOkE {α : Type} (e : Except String α) : Bool :=
  match e with
  | .ok _ => true
  | .error _ => false

/-- The end-to-end data flow of one request over an in-model transport
(spec section 2): the client emits the encoded request, the server
wrapper dispatches it to the handler and emits exactly one response to
the session, the client's response wrapper stores it, and
`_get_and_verify_response` returns it. -/
def request_round_trip (exc_map : List (String × String)) (handler : Handler)
    (sid : String) (st : ClientState) (req : Req) :
    Except String (ClientState × Except RaisedExc Rsp) :=
  match make_request req with
  | .error e => .error e
  | .ok (_, payload) =>
      match handle_request_wrapper handler sid payload with
      | ([em], Option.none) =>
          match client_handle_response st em.payload with
          | (st2, Option.none) => .ok (get_and_verify_response exc_map st2)
          | (_, some e) => .error e
      | _ => .error "no response emitted"

/-- A data value as it arrives on the far side of one encode/decode:
serializable values travel as their canonical JSON text, everything else
unchanged. -/
def transported_data : PyVal → PyVal
  | .ser j => .str j
  | d => d

theorem dropLast4_append_rsp (e : String) : dropLast4 (e ++ "_rsp") = e := by
  unfold dropLast4
  rw [String.data_append]
  have h4 : ("_rsp" : String).data.length = 4 := rfl
  rw [List.length_append, h4, Nat.add_sub_cancel, List.take_left]

/-- C10: the wrapper installed by `handle_response` stores a `Rsp` whose
event field is the payload's event string with its last four characters
removed — unconditionally, for every event string — and sets the wake
flag; this stripping inverts the appending of the fixed four-character
`_rsp` suffix exactly. -/
theorem client_handle_response_strips_event (st : ClientState)
    (status dataV : PyVal) (s : String) :
    client_handle_response st [("status", status), ("event", .str s), ("data", dataV)] =
      ({ st with rsp := some ⟨status, .str (dropLast4 s), dataV⟩, rsp_event_set := true },
       Option.none) ∧
    (∀ e : String, dropLast4 (e ++ "_rsp") = e) := by
  constructor
  · rfl
  · exact dropLast4_append_rsp

/-- C3: when no response has arrived by the deadline (the wake flag is
unset), the wait raises `ResponseTimeoutError` and disconnects the
client, leaving `connected = false`; when a response has arrived, the
wait clears the wake flag and returns the stored response. -/
theorem get_response_timeout_disconnects (rsp : Option Rsp) (sio : Option Bool) :
    get_response ⟨rsp, false, sio⟩ =
      ((⟨rsp, false, sio⟩ : ClientState).disconnect, .error .responseTimeout) ∧
    (ClientState.disconnect ⟨rsp, false, sio⟩).connected = false ∧
    get_response ⟨rsp, true, sio⟩ = (⟨rsp, false, sio⟩, .ok rsp) := by
  refine ⟨rfl, ?_, rfl⟩
  cases sio with
  | none => rfl
  | some c => cases c <;> rfl

/-- C5 (amended): decoding fails exactly when a required-without-default
field is absent (`event` for a request, `status` for a response) or an
unexpected key is present; a response payload missing `event` decodes
with `event = None`, field kinds are never checked, encoding never throws
(every encoded envelope decodes), and a failed decode leaves the client
state untouched. -/
theorem from_dict_required_fields (d : List (String × PyVal)) (r : Req) (rsp : Rsp)
    (st : ClientState) :
    (isOkE (Req.from_dict d) =
      (d.all (fun kv => kv.1 == "event" || kv.1 == "data") &&
        (d.lookup "event").isSome)) ∧
    (isOkE (Rsp.from_dict d) =
      (d.all (fun kv => kv.1 == "status" || kv.1 == "event" || kv.1 == "data") &&
        (d.lookup "status").isSome)) ∧
    isOkE (Req.from_dict r.to_dict) = true ∧
    isOkE (Rsp.from_dict rsp.to_dict) = true ∧
    ((client_handle_response st d).1 = st ∨ (client_handle_response st d).2 = Option.none) := by
  refine ⟨?_, ?_, ?_, ?_, ?_⟩
  · unfold Req.from_dict
    cases hall : d.all (fun kv => kv.1 == "event" || kv.1 == "data") <;>
      cases hlk : d.lookup "event" <;> simp [hall, hlk, isOkE]
  · unfold Rsp.from_dict
    cases hall : d.all (fun kv => kv.1 == "status" || kv.1 == "event" || kv.1 == "data") <;>
      cases hlk : d.lookup "status" <;> simp [hall, hlk, isOkE]
  · cases hdata : r.data <;> simp [Req.to_dict, Req.from_dict, hdata, isOkE]
  · cases hdata : rsp.data <;> simp [Rsp.to_dict, Rsp.from_dict, hdata, isOkE]
  · unfold client_handle_response
    cases hm : d.mapM (fun kv =>
        if kv.1 == "event" then (pySliceDropLast4 kv.2).map (fun v => (kv.1, v))
        else Except.ok kv) with
    | error e => left; rfl
    | ok d2 =>
        cases hfd : Rsp.from_dict d2 with
        | error e => left; simp [hfd]
        | ok r2 => right; simp [hfd]

/-- C5 is false as stated: a response payload missing `event` decodes
successfully (with `event = None`) instead of failing, and a wrong-kind
`event` field (an int) is accepted by the request decoder. -/
theorem from_dict_missing_event_accepted :
    Rsp.from_dict [("status", .str "success")] =
      .ok ⟨.str "success", .none, .none⟩ ∧
    Req.from_dict [("event", .int 7)] = .ok ⟨.int 7, .none⟩ := ⟨rfl, rfl⟩

/-- C2: on a non-success status, `verify_response` decodes the data as an
error record and raises the mapped class applied to the record's message
with trace and the response's event attached, or — for an unmapped name —
a `ResponseError` whose message embeds name, message and event, with the
trace attached; on success it raises nothing and the composed
`_get_and_verify_response` returns the stored response with its data
unchanged. -/
theorem verify_response_decodes_errors (m : List (String × String)) (rsp : Rsp)
    (n : String) (msg tb : PyVal) :
    (rsp.status = .str Status.SUCCESS → verify_response m rsp = Option.none) ∧
    (∀ st : ClientState, st.rsp_event_set = true → st.rsp = some rsp →
        rsp.status = .str Status.SUCCESS →
        get_and_verify_response m st =
          ({ st with rsp_event_set := false }, .ok rsp)) ∧
    (rsp.status ≠ .str Status.SUCCESS →
        rsp.data = .dict [("name", .str n), ("message", msg), ("tb", tb)] →
        verify_response m rsp =
          some (match m.lookup n with
                | some cls => .mapped cls msg tb rsp.event
                | Option.none =>
                    .responseError
                      ("Error: " ++ n ++ ", message: " ++ pyStr msg ++
                       ", event: " ++ pyStr rsp.event) tb)) := by
  refine ⟨?_, ?_, ?_⟩
  · intro hs
    unfold verify_response
    simp [hs]
  · intro st hset hrsp hs
    unfold get_and_verify_response get_response
    simp [hset, hrsp]
    unfold verify_response
    simp [hs]
  · intro hs hdata
    unfold verify_response
    rw [if_pos hs, hdata]
    have hdec : SerializableException.from_dict
        (.dict [("name", .str n), ("message", msg), ("tb", tb)]) =
        .ok ⟨.str n, msg, tb⟩ := rfl
    rw [hdec]
    cases hlk : m.lookup n <;> simp [hlk, pyStr]

/-- Witness for C2 at concrete inputs: a success response raises nothing
and is returned with its data unchanged; a mapped error name raises the
mapped class with message, trace and event attached; an unmapped name
raises the `ResponseError` fallback with the embedding message. -/
theorem verify_response_decodes_errors_witness :
    verify_response [] ⟨.str "success", .str "ev", .int 3⟩ = Option.none ∧
    get_and_verify_response [] ⟨some ⟨.str "success", .str "ev", .int 3⟩, true, some true⟩ =
      (⟨some ⟨.str "success", .str "ev", .int 3⟩, false, some true⟩,
       .ok ⟨.str "success", .str "ev", .int 3⟩) ∧
    verify_response [("ValueError", "ValueError")]
        ⟨.str "error", .str "ev",
         .dict [("name", .str "ValueError"), ("message", .str "bad"), ("tb", .str "tr")]⟩ =
      some (.mapped "ValueError" (.str "bad") (.str "tr") (.str "ev")) ∧
    verify_response []
        ⟨.str "error", .str "ev",
         .dict [("name", .str "KeyError"), ("message", .str "bad"), ("tb", .str "tr")]⟩ =
      some (.responseError "Error: KeyError, message: bad, event: ev" (.str "tr")) := by
  refine ⟨?_, ?_, ?_, ?_⟩
  · exact (verify_response_decodes_errors [] ⟨.str "success", .str "ev", .int 3⟩
      "x" .none .none).1 rfl
  · exact (verify_response_decodes_errors [] ⟨.str "success", .str "ev", .int 3⟩
      "x" .none .none).2.1 ⟨some ⟨.str "success", .str "ev", .int 3⟩, true, some true⟩ rfl rfl rfl
  · have h := (verify_response_decodes_errors [("ValueError", "ValueError")]
      ⟨.str "error", .str "ev",
       .dict [("name", .str "ValueError"), ("message", .str "bad"), ("tb", .str "tr")]⟩
      "ValueError" (.str "bad") (.str "tr")).2.2 (by decide) rfl
    simpa using h
  · have h := (verify_response_decodes_errors []
      ⟨.str "error", .str "ev",
       .dict [("name", .str "KeyError"), ("message", .str "bad"), ("tb", .str "tr")]⟩
      "KeyError" (.str "bad") (.str "tr")).2.2 (by decide) rfl
    simpa [pyStr] using h

/-- C1 (amended): for every valid request with event `E` the dispatcher
emits exactly one response, on `E + '_rsp'`, targeted at the originating
session, whether the handler raises or returns: on an exception it is an
error response carrying the encoded exception, and on a normal return it
is the handler's returned response (status included) with its event set
to `E + '_rsp'`. -/
theorem handle_request_exactly_one_response (handler : Handler) (sid : String)
    (d : List (String × PyVal)) (req : Req) (ev : String)
    (hd : Req.from_dict d = .ok req) (hev : req.event = .str ev) :
    (∃ p, handle_request_wrapper handler sid d =
      ([⟨get_rsp_event ev, p, sid⟩], Option.none)) ∧
    (∀ e : PyExc, handler sid req.event req.data = .error e →
      handle_request_wrapper handler sid d =
        ([⟨get_rsp_event ev,
           (Rsp.mk (.str Status.ERROR) (.str (get_rsp_event ev))
             (.dict [("name", .str e.name), ("message", .str e.message),
                     ("tb", .str e.tb)])).to_dict, sid⟩], Option.none)) ∧
    (∀ r : Rsp, handler sid req.event req.data = .ok r →
      handle_request_wrapper handler sid d =
        ([⟨get_rsp_event ev,
           ({ r with event := .str (get_rsp_event ev) }).to_dict, sid⟩],
         Option.none)) := by
  refine ⟨?_, ?_, ?_⟩
  · unfold handle_request_wrapper
    rw [hd]
    dsimp only
    cases hh : handler sid req.event req.data with
    | error e => rw [hev]; exact ⟨_, rfl⟩
    | ok r => rw [hev]; exact ⟨_, rfl⟩
  · intro e he
    unfold handle_request_wrapper
    rw [hd]
    dsimp only
    rw [he, hev]
    rfl
  · intro r hr
    unfold handle_request_wrapper
    rw [hd]
    dsimp only
    rw [hr, hev]

/-- Witness for C1 at concrete inputs: a raising handler and a returning
handler each cause exactly one emitted response on `ping_rsp` to the
originating sid. -/
theorem handle_request_exactly_one_response_witness :
    handle_request_wrapper (fun _ _ _ => .error ⟨"ValueError", "bad", "tr"⟩) "sid1"
        [("event", .str "ping"), ("data", .int 1)] =
      ([⟨"ping_rsp",
         [("status", .str "error"), ("event", .str "ping_rsp"),
          ("data", .dict [("name", .str "ValueError"), ("message", .str "bad"),
                          ("tb", .str "tr")])], "sid1"⟩], Option.none) ∧
    handle_request_wrapper (fun _ _ _ => .ok ⟨.str "success", .none, .int 2⟩) "sid1"
        [("event", .str "ping"), ("data", .int 1)] =
      ([⟨"ping_rsp",
         [("status", .str "success"), ("event", .str "ping_rsp"), ("data", .int 2)],
         "sid1"⟩], Option.none) := by
  constructor
  · have h := (handle_request_exactly_one_response
        (fun _ _ _ => .error ⟨"ValueError", "bad", "tr"⟩) "sid1"
        [("event", .str "ping"), ("data", .int 1)] ⟨.str "ping", .int 1⟩ "ping"
        rfl rfl).2.1 ⟨"ValueError", "bad", "tr"⟩ rfl
    simpa [Rsp.to_dict, get_rsp_event] using h
  · have h := (handle_request_exactly_one_response
        (fun _ _ _ => .ok ⟨.str "success", .none, .int 2⟩) "sid1"
        [("event", .str "ping"), ("data", .int 1)] ⟨.str "ping", .int 1⟩ "ping"
        rfl rfl).2.2 ⟨.str "success", .none, .int 2⟩ rfl
    simpa [Rsp.to_dict, get_rsp_event] using h

/-- C1 is false as stated: a handler that returns normally with a
non-success response makes the dispatcher emit that response unchanged,
so the emitted status is `error`, not `success`. -/
theorem handle_request_normal_return_not_success :
    handle_request_wrapper (fun _ _ _ => .ok ⟨.str "error", .none, .none⟩) "sid1"
        [("event", .str "ping"), ("data", .none)] =
      ([⟨"ping_rsp",
         [("status", .str "error"), ("event", .str "ping_rsp"), ("data", .none)],
         "sid1"⟩], Option.none) ∧
    (PyVal.str "error") ≠ (.str Status.SUCCESS) := by
  exact ⟨rfl, by decide⟩

theorem round_trip_success_helper (m : List (String × String)) (sid ev : String)
    (st : ClientState) (dreq d2 : PyVal) :
    request_round_trip m (fun _ _ _ => .ok ⟨.str Status.SUCCESS, .none, d2⟩) sid st
        ⟨.str ev, dreq⟩ =
      .ok (ClientState.mk (some ⟨.str Status.SUCCESS, .str ev, transported_data d2⟩)
             false st.sio,
           .ok ⟨.str Status.SUCCESS, .str ev, transported_data d2⟩) := by
  have hkey : dropLast4 (ev ++ "_rsp") = ev := dropLast4_append_rsp ev
  have h1 : request_round_trip m (fun _ _ _ => .ok ⟨.str Status.SUCCESS, .none, d2⟩) sid st
      ⟨.str ev, dreq⟩ =
      .ok (ClientState.mk
             (some ⟨.str Status.SUCCESS, .str (dropLast4 (ev ++ "_rsp")),
                    transported_data d2⟩) false st.sio,
           .ok ⟨.str Status.SUCCESS, .str (dropLast4 (ev ++ "_rsp")),
                transported_data d2⟩) := by
    cases dreq <;> cases d2 <;> rfl
  rw [h1, hkey]

/-- C4 (amended): `to_dict` followed by `from_dict` is the identity for
scalar, sequence, mapping and `None` data; a serializable `data` value
instead decodes to its canonical JSON text as a str.  Correspondingly a
request answered by a handler returning a success response with data `D2`
yields exactly `D2` from the correlator when `D2` is non-serializable,
and `D2`'s canonical JSON text when it is serializable. -/
theorem envelope_roundtrip (r : Req) (rsp : Rsp) (j : String) :
    ((∀ s, r.data ≠ .ser s) → Req.from_dict r.to_dict = .ok r) ∧
    ((∀ s, rsp.data ≠ .ser s) → Rsp.from_dict rsp.to_dict = .ok rsp) ∧
    (r.data = .ser j →
      Req.from_dict r.to_dict = .ok ⟨.str (pyStr r.event), .str j⟩) ∧
    (∀ (m : List (String × String)) (sid ev : String) (st : ClientState) (d2 : PyVal),
      (∀ s, d2 ≠ .ser s) →
      request_round_trip m (fun _ _ _ => .ok ⟨.str Status.SUCCESS, .none, d2⟩) sid st
          ⟨.str ev, r.data⟩ =
        .ok (ClientState.mk (some ⟨.str Status.SUCCESS, .str ev, d2⟩) false st.sio,
             .ok ⟨.str Status.SUCCESS, .str ev, d2⟩)) ∧
    (∀ (m : List (String × String)) (sid ev : String) (st : ClientState),
      request_round_trip m (fun _ _ _ => .ok ⟨.str Status.SUCCESS, .none, .ser j⟩) sid st
          ⟨.str ev, r.data⟩ =
        .ok (ClientState.mk (some ⟨.str Status.SUCCESS, .str ev, .str j⟩) false st.sio,
             .ok ⟨.str Status.SUCCESS, .str ev, .str j⟩)) := by
  obtain ⟨e, dta⟩ := r
  obtain ⟨stt, re, rdta⟩ := rsp
  refine ⟨?_, ?_, ?_, ?_, ?_⟩
  · intro hns
    cases dta with
    | ser s => exact absurd rfl (hns s)
    | none => rfl
    | int n => rfl
    | str s => rfl
    | list xs => rfl
    | dict kvs => rfl
  · intro hns
    cases rdta with
    | ser s => exact absurd rfl (hns s)
    | none => rfl
    | int n => rfl
    | str s => rfl
    | list xs => rfl
    | dict kvs => rfl
  · intro hser
    have h : dta = .ser j := hser
    subst h
    rfl
  · intro m sid ev st d2 hd2
    have h := round_trip_success_helper m sid ev st dta d2
    cases d2 with
    | ser s => exact absurd rfl (hd2 s)
    | none => exact h
    | int n => exact h
    | str s => exact h
    | list xs => exact h
    | dict kvs => exact h
  · intro m sid ev st
    exact round_trip_success_helper m sid ev st dta (.ser j)

/-- Witness for C4 at concrete inputs: a sequence-valued request and a
mapping-valued response round-trip unchanged, a serializable request
datum decodes to its JSON text, and a full request/response round trip
with an int-returning handler yields exactly that int. -/
theorem envelope_roundtrip_witness :
    Req.from_dict (Req.to_dict ⟨.str "ev", .list [.int 1]⟩) =
      .ok ⟨.str "ev", .list [.int 1]⟩ ∧
    Rsp.from_dict (Rsp.to_dict ⟨.str "success", .str "ev", .dict [("k", .int 2)]⟩) =
      .ok ⟨.str "success", .str "ev", .dict [("k", .int 2)]⟩ ∧
    Req.from_dict (Req.to_dict ⟨.str "ev", .ser "\x7b\x7d"⟩) =
      .ok ⟨.str "ev", .str "\x7b\x7d"⟩ ∧
    request_round_trip [] (fun _ _ _ => .ok ⟨.str Status.SUCCESS, .none, .int 5⟩) "s1"
        ⟨Option.none, false, some true⟩ ⟨.str "ping", .int 1⟩ =
      .ok (ClientState.mk (some ⟨.str Status.SUCCESS, .str "ping", .int 5⟩) false
             (some true),
           .ok ⟨.str Status.SUCCESS, .str "ping", .int 5⟩) := by
  refine ⟨?_, ?_, ?_, ?_⟩
  · exact (envelope_roundtrip ⟨.str "ev", .list [.int 1]⟩ ⟨.str "x", .none, .none⟩ "").1
      (fun s h => PyVal.noConfusion h)
  · exact (envelope_roundtrip ⟨.str "x", .none⟩
      ⟨.str "success", .str "ev", .dict [("k", .int 2)]⟩ "").2.1
      (fun s h => PyVal.noConfusion h)
  · exact (envelope_roundtrip ⟨.str "ev", .ser "\x7b\x7d"⟩ ⟨.str "x", .none, .none⟩
      "\x7b\x7d").2.2.1 rfl
  · exact (envelope_roundtrip ⟨.str "x", .int 1⟩ ⟨.str "x", .none, .none⟩ "").2.2.2.1
      [] "s1" "ping" ⟨Option.none, false, some true⟩ (.int 5)
      (fun s h => PyVal.noConfusion h)

/-- C4 is false as stated: encoding a request whose data is a
serializable value and then decoding yields the value's canonical JSON
text as a plain str, not the original serializable value — the decode is
not the inverse and the data's structural type is not preserved. -/
theorem req_roundtrip_ser_not_inverse :
    Req.from_dict (Req.to_dict ⟨.str "ev", .ser "\x7b\x7d"⟩) =
      .ok ⟨.str "ev", .str "\x7b\x7d"⟩ ∧
    Req.from_dict (Req.to_dict ⟨.str "ev", .ser "\x7b\x7d"⟩) ≠
      .ok ⟨.str "ev", .ser "\x7b\x7d"⟩ := by
  refine ⟨rfl, fun h => ?_⟩
  have h2 : ({ event := .str "ev", data := .str "\x7b\x7d" } : Req) =
      { event := .str "ev", data := .ser "\x7b\x7d" } := Except.ok.inj h
  have h3 : (PyVal.str "\x7b\x7d") = .ser "\x7b\x7d" := congrArg Req.data h2
  exact PyVal.noConfusion h3

/-- C6: the certificate-ensure step of server construction is a no-op
when both files exist and the existing certificate's SAN DNS names
contain the hostname (so a second call alters nothing); when either file
is missing or the hostname is absent from the SAN list, a fresh pair is
generated and written to the same paths, and the fresh certificate's SAN
list contains the hostname. -/
theorem ensure_cert_idempotent_and_corrective (cp kp : FsPath) (h : String)
    (seed serial now : Nat) (fs : FS) (c : Cert) :
    (fs.read_bytes cp = some (.certPem c) → fs.existsFile kp = true →
      c.san_dns.contains h = true →
      ensure_cert cp kp h seed serial now fs = .ok fs) ∧
    ((fs.existsFile cp = false ∨ fs.existsFile kp = false) →
      ensure_cert cp kp h seed serial now fs =
        generate_new_cert cp kp h seed serial now fs) ∧
    (fs.read_bytes cp = some (.certPem c) → fs.existsFile kp = true →
      c.san_dns.contains h = false →
      ensure_cert cp kp h seed serial now fs =
        generate_new_cert cp kp h seed serial now fs) ∧
    (∀ fs2 : FS, cp ≠ kp → generate_new_cert cp kp h seed serial now fs = .ok fs2 →
      fs2.read_bytes cp = some (.certPem
        (generate_selfsigned_cert h Option.none Option.none seed serial now).1) ∧
      fs2.read_bytes kp = some (.keyPem
        (generate_selfsigned_cert h Option.none Option.none seed serial now).2) ∧
      (generate_selfsigned_cert h Option.none Option.none
        seed serial now).1.san_dns.contains h = true) := by
  refine ⟨?_, ?_, ?_, ?_⟩
  · intro hrc hek hsan
    have hec : fs.existsFile cp = true := by
      show (fs.files.lookup cp).isSome = true
      rw [show fs.files.lookup cp = some (.certPem c) from hrc]
      rfl
    have hmem : h ∈ c.san_dns := by simpa using hsan
    unfold ensure_cert
    rw [hec, hek, show fs.read_bytes cp = some (.certPem c) from hrc]
    simp [get_dns_names_from_cert, hmem]
  · intro hmiss
    unfold ensure_cert
    cases hmiss with
    | inl hc => rw [hc]; rfl
    | inr hk =>
        rw [hk]
        cases hec : fs.existsFile cp <;> rfl
  · intro hrc hek hsan
    have hec : fs.existsFile cp = true := by
      show (fs.files.lookup cp).isSome = true
      rw [show fs.files.lookup cp = some (.certPem c) from hrc]
      rfl
    have hmem : h ∉ c.san_dns := by simpa using hsan
    unfold ensure_cert
    rw [hec, hek, show fs.read_bytes cp = some (.certPem c) from hrc]
    simp [get_dns_names_from_cert, hmem]
  · intro fs2 hne hgen
    have hbne : (cp == kp) = false := by
      simp only [beq_eq_false_iff_ne, ne_eq]
      exact hne
    have hw1 : (fs.mkdir_parent cp).write_bytes cp
        (.certPem (generate_selfsigned_cert h Option.none Option.none seed serial now).1) =
        .ok ⟨cp.parent :: fs.dirs,
             (cp, .certPem (generate_selfsigned_cert h Option.none Option.none
                seed serial now).1) :: fs.files.filter (fun f => !(f.1 == cp))⟩ := by
      simp [FS.mkdir_parent, FS.write_bytes]
    unfold generate_new_cert at hgen
    dsimp only at hgen
    rw [hw1] at hgen
    unfold FS.write_bytes at hgen
    dsimp only at hgen
    by_cases hkd : (((cp.parent :: fs.dirs).contains kp.parent) = true)
    · rw [if_pos hkd] at hgen
      have hfs2 := Except.ok.inj hgen
      subst hfs2
      refine ⟨?_, ?_, ?_⟩
      · show List.lookup cp _ = _
        simp [List.lookup, hbne, List.filter, beq_self_eq_true]
      · show List.lookup kp _ = _
        simp [List.lookup]
      · simp [generate_selfsigned_cert]
    · rw [if_neg hkd] at hgen
      exact Except.noConfusion hgen

/-- Witness for C6 at concrete inputs: with a hostname-valid certificate
on disk `ensure` leaves the filesystem unchanged; with the hostname
absent from the SAN list it regenerates; and a generated pair is written
back with the hostname in the new SAN list. -/
theorem ensure_cert_idempotent_and_corrective_witness :
    ensure_cert ⟨"pki", "c.pem"⟩ ⟨"pki", "k.pem"⟩ "host" 1 2 3
        ⟨["pki"], [(⟨"pki", "c.pem"⟩,
            .certPem (generate_selfsigned_cert "host" Option.none Option.none 0 0 0).1),
          (⟨"pki", "k.pem"⟩,
            .keyPem (generate_selfsigned_cert "host" Option.none Option.none 0 0 0).2)]⟩ =
      .ok ⟨["pki"], [(⟨"pki", "c.pem"⟩,
            .certPem (generate_selfsigned_cert "host" Option.none Option.none 0 0 0).1),
          (⟨"pki", "k.pem"⟩,
            .keyPem (generate_selfsigned_cert "host" Option.none Option.none 0 0 0).2)]⟩ ∧
    ensure_cert ⟨"pki", "c.pem"⟩ ⟨"pki", "k.pem"⟩ "other" 1 2 3
        ⟨["pki"], [(⟨"pki", "c.pem"⟩,
            .certPem (generate_selfsigned_cert "host" Option.none Option.none 0 0 0).1),
          (⟨"pki", "k.pem"⟩,
            .keyPem (generate_selfsigned_cert "host" Option.none Option.none 0 0 0).2)]⟩ =
      generate_new_cert ⟨"pki", "c.pem"⟩ ⟨"pki", "k.pem"⟩ "other" 1 2 3
        ⟨["pki"], [(⟨"pki", "c.pem"⟩,
            .certPem (generate_selfsigned_cert "host" Option.none Option.none 0 0 0).1),
          (⟨"pki", "k.pem"⟩,
            .keyPem (generate_selfsigned_cert "host" Option.none Option.none 0 0 0).2)]⟩ ∧
    ensure_cert ⟨"pki", "c.pem"⟩ ⟨"pki", "k.pem"⟩ "host" 1 2 3 ⟨["pki"], []⟩ =
      generate_new_cert ⟨"pki", "c.pem"⟩ ⟨"pki", "k.pem"⟩ "host" 1 2 3 ⟨["pki"], []⟩ ∧
    (∀ fs2 : FS,
      generate_new_cert ⟨"pki", "c.pem"⟩ ⟨"pki", "k.pem"⟩ "host" 1 2 3 ⟨["pki"], []⟩ =
        .ok fs2 →
      fs2.read_bytes ⟨"pki", "c.pem"⟩ = some (.certPem
        (generate_selfsigned_cert "host" Option.none Option.none 1 2 3).1)) := by
  refine ⟨?_, ?_, ?_, ?_⟩
  · exact (ensure_cert_idempotent_and_corrective ⟨"pki", "c.pem"⟩ ⟨"pki", "k.pem"⟩
      "host" 1 2 3 _ (generate_selfsigned_cert "host" Option.none Option.none 0 0 0).1).1
      rfl rfl (by decide)
  · exact (ensure_cert_idempotent_and_corrective ⟨"pki", "c.pem"⟩ ⟨"pki", "k.pem"⟩
      "other" 1 2 3 _ (generate_selfsigned_cert "host" Option.none Option.none 0 0 0).1).2.2.1
      rfl rfl (by decide)
  · exact (ensure_cert_idempotent_and_corrective ⟨"pki", "c.pem"⟩ ⟨"pki", "k.pem"⟩
      "host" 1 2 3 ⟨["pki"], []⟩ (generate_selfsigned_cert "host" Option.none Option.none 0 0 0).1).2.1
      (Or.inl rfl)
  · intro fs2 hgen
    exact ((ensure_cert_idempotent_and_corrective ⟨"pki", "c.pem"⟩ ⟨"pki", "k.pem"⟩
      "host" 1 2 3 ⟨["pki"], []⟩ (generate_selfsigned_cert "host" Option.none Option.none 0 0 0).1).2.2.2
      fs2 (by decide) hgen).1

/-- C7 (amended): every generated certificate has the promised shape — a
fresh 4096-bit RSA key with public exponent 65537 when none is supplied,
common name (subject and issuer) equal to the hostname, SAN containing
the hostname plus any extra supplied names, basic constraints CA=true
with path length 0, validity from now to now plus ten years (the code's
`timedelta(days=365*10)`), a SHA-256 signing digest — and both files are
persisted as PEM to the given paths; only the certificate file's parent
directory is created as needed (the key file's parent is not created). -/
theorem generate_selfsigned_cert_shape (hostname : String)
    (ips : Option (List String)) (seed serial now : Nat) (cp kp : FsPath) (fs : FS) :
    ((generate_selfsigned_cert hostname ips Option.none seed serial now).2.key_size = 4096 ∧
     (generate_selfsigned_cert hostname ips Option.none seed serial now).2.public_exponent =
       65537 ∧
     (generate_selfsigned_cert hostname ips Option.none seed serial now).1.subject_cn =
       hostname ∧
     (generate_selfsigned_cert hostname ips Option.none seed serial now).1.issuer_cn =
       hostname ∧
     (generate_selfsigned_cert hostname ips Option.none seed serial now).1.san_dns =
       hostname :: ips.getD [] ∧
     (generate_selfsigned_cert hostname ips Option.none seed serial now).1.ca = true ∧
     (generate_selfsigned_cert hostname ips Option.none seed serial now).1.path_length =
       some 0 ∧
     (generate_selfsigned_cert hostname ips Option.none seed serial now).1.not_valid_before =
       now ∧
     (generate_selfsigned_cert hostname ips Option.none seed serial now).1.not_valid_after =
       now + 365 * 10 ∧
     (generate_selfsigned_cert hostname ips Option.none seed serial now).1.digest =
       "SHA256" ∧
     (generate_selfsigned_cert hostname ips Option.none seed serial now).1.public_key_of =
       (generate_selfsigned_cert hostname ips Option.none seed serial now).2) ∧
    ((cp.parent :: fs.dirs).contains kp.parent = true → cp ≠ kp →
      ∃ fs2 : FS, generate_new_cert cp kp hostname seed serial now fs = .ok fs2 ∧
        fs2.read_bytes cp = some (.certPem
          (generate_selfsigned_cert hostname Option.none Option.none seed serial now).1) ∧
        fs2.read_bytes kp = some (.keyPem
          (generate_selfsigned_cert hostname Option.none Option.none seed serial now).2) ∧
        fs2.dirs.contains cp.parent = true) := by
  constructor
  · exact ⟨rfl, rfl, rfl, rfl, rfl, rfl, rfl, rfl, rfl, rfl, rfl⟩
  · intro hkd hne
    have hbne : (cp == kp) = false := by
      simp only [beq_eq_false_iff_ne, ne_eq]
      exact hne
    refine ⟨⟨cp.parent :: fs.dirs,
      (kp, .keyPem (generate_selfsigned_cert hostname Option.none Option.none
          seed serial now).2) ::
        ((cp, .certPem (generate_selfsigned_cert hostname Option.none Option.none
            seed serial now).1) :: fs.files.filter (fun f => !(f.1 == cp))).filter
          (fun f => !(f.1 == kp))⟩, ?_, ?_, ?_, ?_⟩
    · unfold generate_new_cert FS.mkdir_parent FS.write_bytes
      simp [hkd]
      intro hne2
      have hmem : kp.parent ∈ cp.parent :: fs.dirs := by simpa using hkd
      rcases List.mem_cons.mp hmem with h1 | h2
      · exact absurd h1 hne2
      · exact h2
    · show List.lookup cp _ = _
      simp [List.lookup, hbne, List.filter, beq_self_eq_true]
    · show List.lookup kp _ = _
      simp [List.lookup]
    · simp

/-- Witness for C7 at concrete inputs: the generated pair lands at the
given paths with the certificate parent directory created. -/
theorem generate_selfsigned_cert_shape_witness :
    (generate_selfsigned_cert "host" (some ["10.0.0.1"]) Option.none 1 2 3).1.san_dns =
      ["host", "10.0.0.1"] ∧
    (∃ fs2 : FS, generate_new_cert ⟨"pki", "c.pem"⟩ ⟨"pki", "k.pem"⟩ "host" 1 2 3
        ⟨[], []⟩ = .ok fs2 ∧
      fs2.read_bytes ⟨"pki", "c.pem"⟩ = some (.certPem
        (generate_selfsigned_cert "host" Option.none Option.none 1 2 3).1) ∧
      fs2.read_bytes ⟨"pki", "k.pem"⟩ = some (.keyPem
        (generate_selfsigned_cert "host" Option.none Option.none 1 2 3).2) ∧
      fs2.dirs.contains "pki" = true) := by
  constructor
  · exact (generate_selfsigned_cert_shape "host" (some ["10.0.0.1"]) 1 2 3
      ⟨"pki", "c.pem"⟩ ⟨"pki", "k.pem"⟩ ⟨[], []⟩).1.2.2.2.2.1
  · exact (generate_selfsigned_cert_shape "host" Option.none 1 2 3
      ⟨"pki", "c.pem"⟩ ⟨"pki", "k.pem"⟩ ⟨[], []⟩).2 (by decide) (by decide)

/-- C7 is false as stated on the "parent directories created as needed"
clause: when the key file's parent directory differs from the certificate
file's and does not exist, generation fails with `FileNotFoundError` and
nothing is persisted for the key — only the certificate file's parent is
ever created. -/
theorem generate_new_cert_missing_key_parent :
    generate_new_cert ⟨"certs", "c.pem"⟩ ⟨"keys", "k.pem"⟩ "host" 0 0 0 ⟨[], []⟩ =
      .error "FileNotFoundError" := rfl

/-- C8: the connect callback refuses the connection if and only if the
supplied auth token is not equal to the configured server auth key; a
refused attempt admits no session, so the client's registered request
handlers are never reachable for it, while a matching token admits the
session. -/
theorem connection_gate_iff (auth_key auth : PyVal) (sessions : List String)
    (sid : String) :
    ((∃ e, server_connect_gate auth_key auth = .error e) ↔ auth ≠ auth_key) ∧
    (auth ≠ auth_key →
      transport_connect auth_key sessions sid auth = (sessions, false) ∧
      (sessions.contains sid = false → handlers_reachable sessions sid = false)) ∧
    (auth = auth_key →
      transport_connect auth_key sessions sid auth = (sid :: sessions, true)) := by
  refine ⟨⟨?_, ?_⟩, ?_, ?_⟩
  · rintro ⟨e, he⟩ heq
    subst heq
    unfold server_connect_gate at he
    rw [if_neg (fun hne => hne rfl)] at he
    exact Except.noConfusion he
  · intro hne
    exact ⟨_, by unfold server_connect_gate; rw [if_pos hne]⟩
  · intro hne
    constructor
    · unfold transport_connect server_connect_gate
      rw [if_pos hne]
    · intro hc
      unfold handlers_reachable
      exact hc
  · intro heq
    subst heq
    unfold transport_connect server_connect_gate
    rw [if_neg (fun hne => hne rfl)]

/-- Witness for C8 at concrete inputs: a wrong token is refused and
admits no session (handlers unreachable), the right token is admitted. -/
theorem connection_gate_iff_witness :
    (∃ e, server_connect_gate (.str "k") (.str "wrong") = .error e) ∧
    transport_connect (.str "k") [] "s1" (.str "wrong") = ([], false) ∧
    handlers_reachable [] "s1" = false ∧
    transport_connect (.str "k") [] "s1" (.str "k") = (["s1"], true) := by
  have h := connection_gate_iff (.str "k") (.str "wrong") [] "s1"
  have h2 := connection_gate_iff (.str "k") (.str "k") [] "s1"
  exact ⟨h.1.mpr (by decide), (h.2.1 (by decide)).1, (h.2.1 (by decide)).2 rfl,
    h2.2.2 rfl⟩

/-- C9: server construction accepts a url or a hostname+port pair but not
both — a truthy url together with a truthy hostname or port raises the
mutual-exclusion `ValueError` — and a resolution that does not yield both
a truthy hostname and a truthy port raises a `ValueError`, so every
successful construction has both. -/
theorem server_resolve_host_port_exclusive (hostname : Option String)
    (port : Option Nat) (url : Option String) :
    (pyTruthyStr url = true →
      (pyTruthyStr hostname = true ∨ pyTruthyNat port = true) →
      server_resolve_host_port hostname port url =
        .error "You cannot specify both URL and hostname or port") ∧
    (∀ (h : Option String) (p : Option Nat),
      server_resolve_host_port hostname port url = .ok (h, p) →
      pyTruthyStr h = true ∧ pyTruthyNat p = true) := by
  constructor
  · intro hu hhp
    have hor : (pyTruthyStr hostname || pyTruthyNat port) = true := by
      rcases hhp with h1 | h1 <;> simp [h1]
    unfold server_resolve_host_port
    rw [if_pos hu, if_pos hor]
  · intro h p hok
    unfold server_resolve_host_port at hok
    by_cases hu : pyTruthyStr url = true
    · rw [if_pos hu] at hok
      by_cases hor : (pyTruthyStr hostname || pyTruthyNat port) = true
      · rw [if_pos hor] at hok
        exact Except.noConfusion hok
      · rw [if_neg hor] at hok
        dsimp only at hok
        by_cases hr : (!(pyTruthyStr (urlparse_hostname (url.getD ""))) ||
            !(pyTruthyNat (urlparse_port (url.getD "")))) = true
        · rw [if_pos hr] at hok
          exact Except.noConfusion hok
        · rw [if_neg hr] at hok
          have hinj := Except.ok.inj hok
          have hh : urlparse_hostname (url.getD "") = h := congrArg Prod.fst hinj
          have hp : urlparse_port (url.getD "") = p := congrArg Prod.snd hinj
          rw [← hh, ← hp]
          constructor
          · cases hth : pyTruthyStr (urlparse_hostname (url.getD "")) with
            | true => rfl
            | false => exact absurd (by simp [hth]) hr
          · cases htp : pyTruthyNat (urlparse_port (url.getD "")) with
            | true => rfl
            | false => exact absurd (by simp [htp]) hr
    · rw [if_neg hu] at hok
      dsimp only at hok
      by_cases hr : (!(pyTruthyStr hostname) || !(pyTruthyNat port)) = true
      · rw [if_pos hr] at hok
        exact Except.noConfusion hok
      · rw [if_neg hr] at hok
        have hinj := Except.ok.inj hok
        have hh : hostname = h := congrArg Prod.fst hinj
        have hp : port = p := congrArg Prod.snd hinj
        rw [← hh, ← hp]
        constructor
        · cases hth : pyTruthyStr hostname with
          | true => rfl
          | false => exact absurd (by simp [hth]) hr
        · cases htp : pyTruthyNat port with
          | true => rfl
          | false => exact absurd (by simp [htp]) hr

/-- Witness for C9 at concrete inputs: url together with hostname is
rejected; a url-only construction resolves truthy hostname and port; a
construction with neither url nor port errors rather than succeeding. -/
theorem server_resolve_host_port_exclusive_witness :
    server_resolve_host_port (some "host") Option.none (some "wss://host:8080") =
      .error "You cannot specify both URL and hostname or port" ∧
    server_resolve_host_port Option.none Option.none (some "wss://myhost:8080") =
      .ok (some "myhost", some 8080) ∧
    pyTruthyStr (some "myhost") = true ∧ pyTruthyNat (some 8080) = true ∧
    server_resolve_host_port (some "host") Option.none Option.none =
      .error "Both hostname and port must be specified either directly or via the URL" := by
  refine ⟨?_, rfl, ?_, ?_, rfl⟩
  · exact (server_resolve_host_port_exclusive (some "host") Option.none
      (some "wss://host:8080")).1 rfl (Or.inl rfl)
  · exact ((server_resolve_host_port_exclusive Option.none Option.none
      (some "wss://myhost:8080")).2 (some "myhost") (some 8080) rfl).1
  · exact ((server_resolve_host_port_exclusive Option.none Option.none
      (some "wss://myhost:8080")).2 (some "myhost") (some 8080) rfl).2

end WsBase
